import Mathlib

/-!
Verification of the miniDiscordGateway service: a shallow embedding of
the repository (src/app/models.py, src/app/services.py,
src/app/discord_client.py, src/app/main.py) together with theorems
settling the specification claims about it.

The external gateway library (discord.py) is modelled only through the
operations the repository calls on it: the cached guild lookup
(Client.get_guild), the readiness flag read by is_ready, the member
enumeration (a Guild carries the outcome of fetch_members), and the
graceful close (Client.close marks the connection closed and clears its
internal ready flag, which is what client.is_ready() reads).
-/

/-- Embeds models.py UserInfo: the per-member projection returned to the
caller. `joined_at` holds the ISO-8601 rendering already applied by the
service layer. -/
structure UserInfo where
  id : Int
  username : String
  discriminator : String
  display_name : String
  avatar_url : Option String
  is_bot : Bool
  joined_at : Option String
deriving Repr, DecidableEq

/-- Embeds models.py ErrorResponse: the error body the endpoint declares
in its `responses` documentation (an `error` string plus an optional
`detail`). -/
structure ErrorResponse where
  error : String
  detail : Option String
deriving Repr, DecidableEq

/-- Embeds models.py GuildUsersResponse. The `users` dict is embedded as
an association list in insertion order; Python dict insertion overwrites
in place when the key already exists (see dictInsert). -/
structure GuildUsersResponse where
  guild_id : Int
  guild_name : String
  total_members : Nat
  users : List (String × UserInfo)
deriving Repr, DecidableEq

/-- A member as enumerated by guild.fetch_members in services.py: exactly
the fields the service reads. `discriminator` is an Option so that both
an absent value (None) and the empty string are representable; Python
`x or "0000"` treats the two alike. `avatar` holds the avatar URL when
an avatar exists (`member.avatar.url if member.avatar else None`), and
`joined_at` the ISO-8601 string when a join timestamp exists. -/
structure Member where
  id : Int
  name : String
  discriminator : Option String
  display_name : String
  avatar : Option String
  bot : Bool
  joined_at : Option String
deriving Repr, DecidableEq

/-- Python truthiness of `s or d` for an optional string: None and the
empty string both fall back to the default. -/
def orDefault (s : Option String) (d : String) : String :=
  match s with
  | none => d
  | some v => if v = "" then d else v

/-- The UserInfo constructed for one member in services.py lines 39-47. -/
def mkUserInfo (m : Member) : UserInfo :=
  { id := m.id
    username := m.name
    discriminator := orDefault m.discriminator "0000"
    display_name := m.display_name
    avatar_url := m.avatar
    is_bot := m.bot
    joined_at := m.joined_at }

/-- Outcome of iterating `guild.fetch_members(limit=None)` in
services.py: either the full list of members enumerated, or one of the
exception classes caught by the endpoint in main.py (discord.Forbidden,
discord.HTTPException, or any other exception). -/
inductive FetchOutcome where
  | members : List Member → FetchOutcome
  | forbidden : FetchOutcome
  | httpError : FetchOutcome
  | unexpected : FetchOutcome
deriving Repr, DecidableEq

/-- A guild as seen through the connection's local cache, together with
what its member enumeration does. -/
structure Guild where
  id : Int
  name : String
  fetch : FetchOutcome
deriving Repr, DecidableEq

/-- The external gateway client as the repository observes it: the
internal ready flag read by `client.is_ready()`, the closed flag read by
`client.is_closed()`, and the local guild cache read by
`client.get_guild(guild_id)`. -/
structure Client where
  ready : Bool
  closed : Bool
  guilds : List Guild
deriving Repr, DecidableEq

/-- discord.py Client.get_guild: local cache lookup by integer id, no
network access. -/
def Client.get_guild (c : Client) (guild_id : Int) : Option Guild :=
  c.guilds.find? (fun g => g.id = guild_id)

/-- discord.py Client.is_ready: non-blocking read of the internal ready
event. -/
def Client.is_ready (c : Client) : Bool := c.ready

/-- discord.py Client.is_closed. -/
def Client.is_closed (c : Client) : Bool := c.closed

/-- The external collaborator's graceful close (spec section 6 item (a)):
discord.py Client.close returns at once when already closed, otherwise
marks the session closed and clears the internal ready event, so a later
`is_ready()` reads false. -/
def Client.close (c : Client) : Client :=
  if c.closed then c else { c with closed := true, ready := false }

/-- Python dict insertion `d[k] = v`: overwrite in place when the key is
present, append otherwise. -/
def dictInsert (m : List (String × UserInfo)) (k : String) (v : UserInfo) :
    List (String × UserInfo) :=
  if m.any (fun p => p.1 = k) then
    m.map (fun p => if p.1 = k then (k, v) else p)
  else
    m ++ [(k, v)]

/-- One iteration of the enumeration loop in services.py lines 36-49:
insert the member's projection under its stringified id. -/
def insertMember (acc : List (String × UserInfo)) (m : Member) :
    List (String × UserInfo) :=
  dictInsert acc (toString m.id) (mkUserInfo m)

/-- The users_map built by the enumeration loop in services.py lines
36-49: one dict insertion per enumerated member, keyed by the
stringified member id. -/
def buildUsersMap (ms : List Member) : List (String × UserInfo) :=
  ms.foldl insertMember []

/-- The failures get_guild_users can raise, as the endpoint in main.py
distinguishes them: ValueError (guild not found, carrying str(e)),
discord.Forbidden, discord.HTTPException, and anything else. -/
inductive ServiceError where
  | valueError : String → ServiceError
  | forbidden : ServiceError
  | httpError : ServiceError
  | unexpected : ServiceError
deriving Repr, DecidableEq

/-- Embeds services.py get_guild_users: resolve the guild from the local
cache (raising ValueError when absent), enumerate its members into the
users map, and shape the response with total_members set to the size of
that map. Exceptions escaping the enumeration propagate. -/
def get_guild_users (client : Client) (guild_id : Int) :
    Except ServiceError GuildUsersResponse :=
  match client.get_guild guild_id with
  | none =>
      .error (.valueError ("Guild " ++ toString guild_id ++ " not found"))
  | some guild =>
      match guild.fetch with
      | .members ms =>
          let users_map := buildUsersMap ms
          .ok { guild_id := guild.id
                guild_name := guild.name
                total_members := users_map.length
                users := users_map }
      | .forbidden => .error .forbidden
      | .httpError => .error .httpError
      | .unexpected => .error .unexpected

/-- What the endpoint in main.py produces: a success body, or a raised
HTTPException carrying a status code and a detail string. -/
inductive EndpointResult where
  | ok : GuildUsersResponse → EndpointResult
  | httpError : Nat → String → EndpointResult
deriving Repr, DecidableEq

/-- Embeds main.py get_guild_users_endpoint lines 148-191 as the route
declares it: validate the identifier, gate on client.is_ready(), delegate
to the service layer, and map each exception class to the status code and
detail of its except clause. Note that main.py never imports discord, so
at runtime the clauses naming discord.Forbidden and discord.HTTPException
are dead: only the branches up to and including the ValueError handler
execute as written (see endpointActualRun for the executed behavior on
the remaining branches). -/
def get_guild_users_endpoint (client : Client) (guild_id : Int) :
    EndpointResult :=
  if guild_id ≤ 0 then
    .httpError 400 "Guild ID must be a positive integer"
  else if !client.is_ready then
    .httpError 503 "Discord client is not ready. Please try again later."
  else
    match get_guild_users client guild_id with
    | .ok r => .ok r
    | .error (.valueError msg) => .httpError 404 msg
    | .error .forbidden =>
        .httpError 403 "Bot does not have permission to access this guild"
    | .error .httpError =>
        .httpError 502 "Discord API error. Please try again later."
    | .error .unexpected =>
        .httpError 500 "An unexpected error occurred"

/-- What one invocation of the endpoint actually produces once the
framework is accounted for: a returned response body, a raised
fastapi.HTTPException (which FastAPI's installed handler turns into a
response of that status), or an exception no handler catches, which
escapes to the server middleware and yields its one generic 500. -/
inductive ActualOutcome where
  | ok : GuildUsersResponse → ActualOutcome
  | raisedHTTP : Nat → String → ActualOutcome
  | unhandledNameError : ActualOutcome
deriving Repr, DecidableEq

/-- Embeds main.py get_guild_users_endpoint as Python executes it.
main.py imports os, asyncio, logging, contextlib, fastapi, dotenv and
three relative names, but never discord; except clauses are evaluated
lazily and in order, so when a non-ValueError exception escapes the
service call, evaluating the clause on line 172 (except
discord.Forbidden) raises NameError, which aborts the whole handling:
the later clauses, including except Exception, are never consulted, and
the NameError escapes unhandled. Forbidden, upstream and unexpected
failures therefore all produce the same unhandled outcome; the 403, 502
and crafted opaque 500 responses are dead code. -/
def endpointActualRun (client : Client) (guild_id : Int) : ActualOutcome :=
  if guild_id ≤ 0 then
    .raisedHTTP 400 "Guild ID must be a positive integer"
  else if !client.is_ready then
    .raisedHTTP 503 "Discord client is not ready. Please try again later."
  else
    match get_guild_users client guild_id with
    | .ok r => .ok r
    | .error (.valueError msg) => .raisedHTTP 404 msg
    | .error .forbidden => .unhandledNameError
    | .error .httpError => .unhandledNameError
    | .error .unexpected => .unhandledNameError

/-- State of DiscordClientManager in discord_client.py: the singleton
client object (shared with the reference main.py holds) plus whether the
_instance slot is set. -/
structure ManagerState where
  client : Client
  instanceSet : Bool
deriving Repr, DecidableEq

/-- Embeds DiscordClientManager.close (discord_client.py lines 32-37):
when an instance exists and is not closed, gracefully close it and clear
the _instance slot; otherwise do nothing. -/
def managerClose (s : ManagerState) : ManagerState :=
  if s.instanceSet && !s.client.is_closed then
    { client := s.client.close, instanceSet := false }
  else s

/-- Outcome of the lifespan startup phase in main.py lines 45-69: either
the readiness wait succeeded and the app proceeds to serve, or the
TimeoutError branch ran: discord_task.cancel() followed by raise. -/
inductive StartupOutcome where
  | serving : StartupOutcome
  | abortedAfterCancel : StartupOutcome
deriving Repr, DecidableEq

/-- The fixed timeout passed to asyncio.wait_for in main.py line 62. -/
def startupTimeout : Nat := 10

/-- Embeds the lifespan startup sequence of main.py: given the time (if
any) at which on_ready sets the client_ready event, the bounded wait
succeeds exactly when that happens within the timeout; otherwise the
background task is cancelled and the exception re-raised, aborting
process startup. -/
def lifespanStartup (readySetAt : Option Nat) : StartupOutcome :=
  match readySetAt with
  | some t => if t ≤ startupTimeout then .serving else .abortedAfterCancel
  | none => .abortedAfterCancel

/-! Concrete fixtures used by witnesses and counterexamples. -/

/-- A human member with a legacy discriminator, an avatar and a join
timestamp. -/
def mAlice : Member :=
  { id := 1, name := "alice", discriminator := some "0001"
    display_name := "Alice", avatar := some "https://cdn.example/a.png"
    bot := false, joined_at := some "2023-01-15T10:30:00Z" }

/-- A bot member whose discriminator is absent. -/
def mBotUser : Member :=
  { id := 2, name := "bot-user", discriminator := none
    display_name := "Bot User", avatar := none
    bot := true, joined_at := none }

/-- A cached guild with two distinct members. -/
def gMain : Guild :=
  { id := 987654321, name := "My Server", fetch := .members [mAlice, mBotUser] }

/-- A cached guild whose member enumeration raises discord.Forbidden. -/
def gForb : Guild := { id := 2, name := "forbidden-guild", fetch := .forbidden }

/-- A cached guild whose member enumeration raises discord.HTTPException. -/
def gHttp : Guild := { id := 3, name := "flaky-guild", fetch := .httpError }

/-- A cached guild whose member enumeration raises an unexpected
exception. -/
def gUnexp : Guild := { id := 4, name := "weird-guild", fetch := .unexpected }

/-- A ready client caching all of the fixture guilds. -/
def cMulti : Client :=
  { ready := true, closed := false, guilds := [gMain, gForb, gHttp, gUnexp] }

/-- A client whose readiness flag is false. -/
def cNotReady : Client := { ready := false, closed := false, guilds := [gMain] }

/-- The response the service builds for gMain. -/
def rMain : GuildUsersResponse :=
  { guild_id := 987654321, guild_name := "My Server", total_members := 2
    users := [("1", mkUserInfo mAlice), ("2", mkUserInfo mBotUser)] }

/-- Two enumerated entries that share the member id 7. -/
def mDupA : Member :=
  { id := 7, name := "first", discriminator := some "0001"
    display_name := "First", avatar := none, bot := false, joined_at := none }

/-- Second enumerated entry under the same id 7. -/
def mDupB : Member :=
  { id := 7, name := "second", discriminator := none
    display_name := "Second", avatar := none, bot := true, joined_at := none }

/-- A guild whose enumeration yields two entries with the same id. -/
def gDup : Guild := { id := 5, name := "dup", fetch := .members [mDupA, mDupB] }

/-- A ready client caching gDup. -/
def cDup : Client := { ready := true, closed := false, guilds := [gDup] }

/-- The response the service builds for gDup: the second entry overwrote
the first, so the map holds one key. -/
def rDup : GuildUsersResponse :=
  { guild_id := 5, guild_name := "dup", total_members := 1
    users := [("7", mkUserInfo mDupB)] }

/-- A manager state holding a live (open) client. -/
def sLive : ManagerState :=
  { client := { ready := true, closed := false, guilds := [] }
    instanceSet := true }

/-- A manager state whose _instance slot is empty. -/
def sNone : ManagerState :=
  { client := { ready := false, closed := true, guilds := [] }
    instanceSet := false }

/-! Helper lemmas about the users-map construction. -/

/-- Membership after a dict insertion: the pair was already present or
is the inserted one. -/
lemma mem_dictInsert {m : List (String × UserInfo)} {k : String}
    {v : UserInfo} {p : String × UserInfo} (hp : p ∈ dictInsert m k v) :
    p ∈ m ∨ p = (k, v) := by
  unfold dictInsert at hp
  split at hp
  · rcases List.mem_map.mp hp with ⟨q, hq, hq2⟩
    by_cases hk : q.1 = k
    · right
      rw [if_pos hk] at hq2
      exact hq2.symm
    · left
      rw [if_neg hk] at hq2
      exact hq2 ▸ hq
  · rcases List.mem_append.mp hp with h1 | h1
    · exact Or.inl h1
    · right
      simpa using h1

/-- When the key is absent, a dict insertion appends. -/
lemma dictInsert_of_not_mem {m : List (String × UserInfo)} {k : String}
    {v : UserInfo} (h : m.any (fun q => q.1 = k) = false) :
    dictInsert m k v = m ++ [(k, v)] := by
  unfold dictInsert
  simp [h]

/-- Every pair in the folded users map either was in the accumulator or
is the projection of an enumerated member under its stringified id. -/
lemma mem_foldl_insertMember :
    ∀ (ms : List Member) (acc : List (String × UserInfo))
      (p : String × UserInfo), p ∈ ms.foldl insertMember acc →
      p ∈ acc ∨ ∃ m ∈ ms, p = (toString m.id, mkUserInfo m) := by
  intro ms
  induction ms with
  | nil =>
      intro acc p hp
      exact Or.inl hp
  | cons m t ih =>
      intro acc p hp
      rw [List.foldl_cons] at hp
      rcases ih _ p hp with h1 | ⟨m2, hm2, hp2⟩
      · rcases mem_dictInsert h1 with h2 | h2
        · exact Or.inl h2
        · exact Or.inr ⟨m, List.mem_cons_self _ _, h2⟩
      · exact Or.inr ⟨m2, List.mem_cons_of_mem _ hm2, hp2⟩

/-- When the enumerated stringified ids are pairwise distinct and none
collides with the accumulator, folding adds exactly one pair per
member. -/
lemma length_foldl_insertMember :
    ∀ (ms : List Member) (acc : List (String × UserInfo)),
      (ms.map fun m => toString m.id).Nodup →
      (∀ m ∈ ms, acc.any (fun q => q.1 = toString m.id) = false) →
      (ms.foldl insertMember acc).length = acc.length + ms.length := by
  intro ms
  induction ms with
  | nil =>
      intro acc _ _
      simp
  | cons m t ih =>
      intro acc hnd hdis
      rw [List.foldl_cons]
      have hm : acc.any (fun q => q.1 = toString m.id) = false :=
        hdis m (List.mem_cons_self _ _)
      have hins : insertMember acc m =
          acc ++ [(toString m.id, mkUserInfo m)] := by
        unfold insertMember
        exact dictInsert_of_not_mem hm
      have hnd2 : (t.map fun x => toString x.id).Nodup :=
        (List.nodup_cons.mp (by simpa using hnd)).2
      have hkey : toString m.id ∉ (t.map fun x => toString x.id) :=
        (List.nodup_cons.mp (by simpa using hnd)).1
      have hdis2 : ∀ m2 ∈ t,
          (acc ++ [(toString m.id, mkUserInfo m)]).any
            (fun q => q.1 = toString m2.id) = false := by
        intro m2 hm2
        rw [List.any_append]
        have h1 := hdis m2 (List.mem_cons_of_mem _ hm2)
        rw [h1]
        simp only [Bool.false_or, List.any_cons, List.any_nil,
          Bool.or_false, decide_eq_false_iff_not]
        intro heq
        exact hkey (heq ▸ List.mem_map_of_mem _ hm2)
      rw [hins, ih _ hnd2 hdis2]
      simp [List.length_append]
      omega

/-- Inverting a successful service call: the response fields are exactly
the ones get_guild_users builds from the cached guild and the enumerated
members. -/
lemma get_guild_users_ok_inv {c : Client} {gid : Int} {guild : Guild}
    {ms : List Member} {r : GuildUsersResponse}
    (hg : c.get_guild gid = some guild) (hf : guild.fetch = .members ms)
    (hok : get_guild_users c gid = .ok r) :
    r = { guild_id := guild.id, guild_name := guild.name
          total_members := (buildUsersMap ms).length
          users := buildUsersMap ms } := by
  unfold get_guild_users at hok
  rw [hg] at hok
  simp only [hf] at hok
  simpa using hok.symm

/-! Theorems settling the claims. -/

/-- C1: when the ReadinessSignal is not set within the fixed 10-unit
startup wait, the lifespan startup sequence cancels the background
connection task and re-raises, aborting process startup; it never
reaches the serving state. -/
theorem lifespan_timeout_aborts (readySetAt : Option Nat)
    (h : ∀ t, readySetAt = some t → startupTimeout < t) :
    lifespanStartup readySetAt = .abortedAfterCancel ∧
    lifespanStartup readySetAt ≠ .serving := by
  cases readySetAt with
  | none =>
      refine ⟨rfl, ?_⟩
      simp [lifespanStartup]
  | some t =>
      have ht := h t rfl
      have hgt : ¬ (t ≤ startupTimeout) := by omega
      refine ⟨?_, ?_⟩ <;> simp [lifespanStartup, hgt]

/-- Witness for C1: readiness never set within the wait. -/
theorem lifespan_timeout_aborts_witness :
    lifespanStartup none = .abortedAfterCancel ∧
    lifespanStartup none ≠ .serving :=
  lifespan_timeout_aborts none (fun _ ht => nomatch ht)

/-- C2 counterexample: a community whose enumeration yields two member
entries sharing the id 7 produces a successful response with
total_members 1 and a one-key users map, not 2: the second entry
overwrote the first in the dict. -/
theorem total_members_counterexample :
    gDup.fetch = .members [mDupA, mDupB] ∧
    [mDupA, mDupB].length = 2 ∧
    get_guild_users_endpoint cDup 5 = .ok rDup ∧
    rDup.total_members = 1 ∧ rDup.users.length = 1 ∧
    rDup.total_members ≠ 2 :=
  ⟨rfl, rfl, rfl, rfl, rfl, by decide⟩

/-- C2 amended: on a successful request, total_members always equals the
number of keys of the users map and every key is the stringified id of
the entry stored under it; when the enumerated member ids are pairwise
distinct, both counts equal the number of entries enumerated. -/
theorem member_map_shape (c : Client) (gid : Int) (guild : Guild)
    (ms : List Member) (r : GuildUsersResponse)
    (hg : c.get_guild gid = some guild) (hf : guild.fetch = .members ms)
    (hok : get_guild_users c gid = .ok r)
    (hnd : (ms.map fun m => toString m.id).Nodup) :
    r.total_members = r.users.length ∧
    r.total_members = ms.length ∧
    ∀ p ∈ r.users, p.1 = toString p.2.id := by
  have hr := get_guild_users_ok_inv hg hf hok
  subst hr
  refine ⟨rfl, ?_, ?_⟩
  · show (buildUsersMap ms).length = ms.length
    unfold buildUsersMap
    have := length_foldl_insertMember ms [] hnd (by intro m _; rfl)
    simpa using this
  · intro p hp
    rcases mem_foldl_insertMember ms [] p hp with h1 | ⟨m, _, hp2⟩
    · exact absurd h1 (List.not_mem_nil p)
    · rw [hp2]
      rfl

/-- Witness for C2 amended: the two-member guild with distinct ids. -/
theorem member_map_shape_witness :
    rMain.total_members = rMain.users.length ∧
    rMain.total_members = [mAlice, mBotUser].length ∧
    ∀ p ∈ rMain.users, p.1 = toString p.2.id :=
  member_map_shape cMulti 987654321 gMain [mAlice, mBotUser] rMain
    rfl rfl rfl (by decide)

/-- C3: closing a manager whose handle exists and is not yet closed
gracefully shuts the client down, clears the _instance slot, and leaves
the client the Request Handler references reading not-ready, so no
stale ready state is observable. -/
theorem manager_close_live_handle (s : ManagerState)
    (h1 : s.instanceSet = true) (h2 : s.client.is_closed = false) :
    (managerClose s).client.is_closed = true ∧
    (managerClose s).instanceSet = false ∧
    (managerClose s).client.is_ready = false := by
  have h2f : s.client.closed = false := h2
  unfold managerClose
  simp [Client.is_closed, Client.is_ready, Client.close, h1, h2f]

/-- Witness for C3: a live open handle. -/
theorem manager_close_live_handle_witness :
    (managerClose sLive).client.is_closed = true ∧
    (managerClose sLive).instanceSet = false ∧
    (managerClose sLive).client.is_ready = false :=
  manager_close_live_handle sLive rfl rfl

/-- C4: the declared six-way taxonomy does not hold of the code as it
runs. With the missing discord import, a forbidden failure, an upstream
failure and an unexpected failure all take the same path: the first
except clause naming discord raises NameError, every later handler is
skipped, and one identical unhandled outcome reaches the framework in
place of the distinct 403, 502 and opaque 500 responses. Evaluated at
the three fixture guilds whose enumerations fail in the three ways. -/
theorem exception_handlers_collapse :
    gForb.fetch = .forbidden ∧
    gHttp.fetch = .httpError ∧
    gUnexp.fetch = .unexpected ∧
    endpointActualRun cMulti 2 = .unhandledNameError ∧
    endpointActualRun cMulti 3 = .unhandledNameError ∧
    endpointActualRun cMulti 4 = .unhandledNameError :=
  ⟨rfl, rfl, rfl, rfl, rfl, rfl⟩

/-- C5: a non-positive identifier yields a 400 client-input error for
every client, whatever its readiness or cache: the validation runs
before any readiness check or lookup. -/
theorem endpoint_nonpositive_bad_request (c : Client) (g : Int)
    (h : g ≤ 0) :
    get_guild_users_endpoint c g =
      .httpError 400 "Guild ID must be a positive integer" := by
  unfold get_guild_users_endpoint
  rw [if_pos h]

/-- Witness for C5: identifier 0 against a not-ready client. -/
theorem endpoint_nonpositive_bad_request_witness :
    (0 : Int) ≤ 0 ∧
    get_guild_users_endpoint cNotReady 0 =
      .httpError 400 "Guild ID must be a positive integer" :=
  ⟨by decide, endpoint_nonpositive_bad_request cNotReady 0 (by decide)⟩

/-- C6: with a strictly positive identifier and readiness false, the
endpoint returns 503 for every client, whatever its guild cache: the
readiness gate runs before the lookup. -/
theorem endpoint_not_ready_unavailable (c : Client) (g : Int)
    (h1 : 0 < g) (h2 : c.is_ready = false) :
    get_guild_users_endpoint c g =
      .httpError 503 "Discord client is not ready. Please try again later." := by
  have hn : ¬ (g ≤ 0) := by omega
  simp [get_guild_users_endpoint, hn, h2]

/-- Witness for C6: the not-ready client, which does cache guild
987654321, still yields 503. -/
theorem endpoint_not_ready_unavailable_witness :
    (0 : Int) < 987654321 ∧ cNotReady.is_ready = false ∧
    get_guild_users_endpoint cNotReady 987654321 =
      .httpError 503 "Discord client is not ready. Please try again later." :=
  ⟨by decide, rfl,
   endpoint_not_ready_unavailable cNotReady 987654321 (by decide) rfl⟩

/-- C7: with a strictly positive identifier, readiness true and no
cached guild under that id, the endpoint returns 404 carrying the
ValueError message of the service layer. -/
theorem endpoint_guild_absent_not_found (c : Client) (g : Int)
    (h1 : 0 < g) (h2 : c.is_ready = true) (h3 : c.get_guild g = none) :
    get_guild_users_endpoint c g =
      .httpError 404 ("Guild " ++ toString g ++ " not found") := by
  have hn : ¬ (g ≤ 0) := by omega
  simp [get_guild_users_endpoint, hn, h2, get_guild_users, h3]

/-- Witness for C7: id 9 is cached by none of the fixture guilds. -/
theorem endpoint_guild_absent_not_found_witness :
    cMulti.get_guild 9 = none ∧
    get_guild_users_endpoint cMulti 9 =
      .httpError 404 ("Guild " ++ toString (9 : Int) ++ " not found") :=
  ⟨rfl, endpoint_guild_absent_not_found cMulti 9 (by decide) rfl rfl⟩

/-- C8: evaluating the endpoint at the failing input guild_id = 0, the
error it produces is a raised HTTPException carrying a status code and
one bare detail string, never a constructed ErrorResponse: FastAPI's
default HTTPException handler serializes this as a body with a single
detail field and no error field, diverging from the declared
ErrorResponse shape. -/
theorem endpoint_error_is_bare_detail :
    get_guild_users_endpoint cMulti 0 =
      .httpError 400 "Guild ID must be a positive integer" := rfl

/-- C9: closing is idempotent: with no handle in the slot it is a no-op,
with an already-closed client it is a no-op, and a second close after
any close changes nothing; the operation is total, so no exception can
escape it. -/
theorem manager_close_idempotent (s : ManagerState) :
    (s.instanceSet = false → managerClose s = s) ∧
    (s.client.is_closed = true → managerClose s = s) ∧
    managerClose (managerClose s) = managerClose s := by
  refine ⟨?_, ?_, ?_⟩
  · intro h
    unfold managerClose
    simp [h]
  · intro h
    have hf : s.client.closed = true := h
    unfold managerClose
    simp [Client.is_closed, hf]
  · unfold managerClose
    by_cases h : (s.instanceSet && !s.client.is_closed) = true
    · rw [if_pos h]
      simp
    · rw [if_neg h, if_neg h]

/-- Witness for C9: a no-op close on the empty slot and a repeated close
after closing a live handle. -/
theorem manager_close_idempotent_witness :
    managerClose sNone = sNone ∧
    managerClose (managerClose sLive) = managerClose sLive :=
  ⟨(manager_close_idempotent sNone).1 rfl,
   (manager_close_idempotent sLive).2.2⟩

/-- C10: every entry of a successful response is the projection of an
enumerated member, and whenever that member's discriminator was absent
or the empty string the stored entry carries the substituted default
string 0000. -/
theorem discriminator_default (c : Client) (gid : Int) (guild : Guild)
    (ms : List Member) (r : GuildUsersResponse)
    (hg : c.get_guild gid = some guild) (hf : guild.fetch = .members ms)
    (hok : get_guild_users c gid = .ok r) :
    ∀ p ∈ r.users, ∃ m ∈ ms, p.2 = mkUserInfo m ∧
      ((m.discriminator = none ∨ m.discriminator = some "") →
        p.2.discriminator = "0000") := by
  have hr := get_guild_users_ok_inv hg hf hok
  subst hr
  intro p hp
  rcases mem_foldl_insertMember ms [] p hp with h1 | ⟨m, hm, hp2⟩
  · exact absurd h1 (List.not_mem_nil p)
  · refine ⟨m, hm, by rw [hp2], ?_⟩
    intro hd
    rw [hp2]
    rcases hd with hd | hd <;> simp [mkUserInfo, orDefault, hd]

/-- Witness for C10: the stored entry of the fixture member whose
discriminator is absent. -/
theorem discriminator_default_witness :
    ∃ m ∈ [mAlice, mBotUser], ("2", mkUserInfo mBotUser).2 = mkUserInfo m ∧
      ((m.discriminator = none ∨ m.discriminator = some "") →
        ("2", mkUserInfo mBotUser).2.discriminator = "0000") :=
  discriminator_default cMulti 987654321 gMain [mAlice, mBotUser] rMain
    rfl rfl rfl ("2", mkUserInfo mBotUser) (by decide)
